import Mathlib

set_option maxRecDepth 100000

/-!
# Verification of the extension-host protocol layer

A shallow embedding of `src/vs/workbench/api/node/extHost.protocol.ts`:
the capability dispatch tables (`MainContext` / `ExtHostContext` and the
shape interfaces they register), the object-identity helpers
(`ObjectIdentifier`, `IdObject`), and the documents-and-editors delta
data model, together with theorems settling the specification's claims
about them.

The dispatch tables are pure declarations, so they are embedded as data:
each interface becomes a `ShapeDecl` value recording its name, whether it
extends `IDisposable`, and its method signatures exactly as written in the
source (argument declarations and return types as strings).
-/

/-- A method signature as declared on a protocol shape: the method name,
the argument declarations as written in the source, and the declared
return type. -/
structure MethodDecl where
  name : String
  args : List String
  ret : String
deriving DecidableEq

/-- A protocol capability shape: its interface name, whether the interface
extends `IDisposable`, and its declared methods. -/
structure ShapeDecl where
  name : String
  extendsIDisposable : Bool
  methods : List MethodDecl
deriving DecidableEq

/-- One entry of a proxy-identifier context table (`MainContext` or
`ExtHostContext`): the key under which the identifier is stored in the
table, the name string passed to `createMainContextProxyIdentifier` /
`createExtHostContextProxyIdentifier`, and the shape it addresses. -/
structure ContextEntry where
  key : String
  registeredName : String
  shape : ShapeDecl
deriving DecidableEq

/-- `startsWithChars p s` holds when the character list `p` is an initial
segment of `s`. -/
def startsWithChars : List Char → List Char → Bool
  | [], _ => true
  | _ :: _, [] => false
  | a :: p, b :: s => a == b && startsWithChars p s

/-- `hasSubChars p s` holds when `p` occurs as a contiguous run inside `s`. -/
def hasSubChars (p : List Char) : List Char → Bool
  | [] => startsWithChars p []
  | s@(_ :: t) => startsWithChars p s || hasSubChars p t

/-- String-level wrapper of `startsWithChars`. -/
def strStartsWith (p s : String) : Bool := startsWithChars p.toList s.toList

/-- String-level wrapper of `hasSubChars`. -/
def strHasSub (p s : String) : Bool := hasSubChars p.toList s.toList
/-- `MainThreadCommandsShape` as declared in extHost.protocol.ts (extends IDisposable). -/
def MainThreadCommandsShape : ShapeDecl :=
  ⟨"MainThreadCommandsShape", true,
   [⟨"$registerCommand", ["id: string"], "TPromise<any>"⟩,
    ⟨"$unregisterCommand", ["id: string"], "TPromise<any>"⟩,
    ⟨"$executeCommand", ["id: string", "args: any[]"], "Thenable<T>"⟩,
    ⟨"$getCommands", [], "Thenable<string[]>"⟩]⟩

/-- `MainThreadConfigurationShape` as declared in extHost.protocol.ts (extends IDisposable). -/
def MainThreadConfigurationShape : ShapeDecl :=
  ⟨"MainThreadConfigurationShape", true,
   [⟨"$updateConfigurationOption", ["target: ConfigurationTarget", "key: string", "value: any", "resource: URI"], "TPromise<void>"⟩,
    ⟨"$removeConfigurationOption", ["target: ConfigurationTarget", "key: string", "resource: URI"], "TPromise<void>"⟩]⟩

/-- `MainThreadDiagnosticsShape` as declared in extHost.protocol.ts (extends IDisposable). -/
def MainThreadDiagnosticsShape : ShapeDecl :=
  ⟨"MainThreadDiagnosticsShape", true,
   [⟨"$changeMany", ["owner: string", "entries: [URI, IMarkerData[]][]"], "TPromise<any>"⟩,
    ⟨"$clear", ["owner: string"], "TPromise<any>"⟩]⟩

/-- `MainThreadDiaglogsShape` as declared in extHost.protocol.ts (extends IDisposable). -/
def MainThreadDiaglogsShape : ShapeDecl :=
  ⟨"MainThreadDiaglogsShape", true,
   [⟨"$showOpenDialog", ["options: MainThreadDialogOpenOptions"], "TPromise<string[]>"⟩,
    ⟨"$showSaveDialog", ["options: MainThreadDialogSaveOptions"], "TPromise<string>"⟩]⟩

/-- `MainThreadDecorationsShape` as declared in extHost.protocol.ts (extends IDisposable). -/
def MainThreadDecorationsShape : ShapeDecl :=
  ⟨"MainThreadDecorationsShape", true,
   [⟨"$registerDecorationProvider", ["handle: number", "label: string"], "void"⟩,
    ⟨"$unregisterDecorationProvider", ["handle: number"], "void"⟩,
    ⟨"$onDidChange", ["handle: number", "resources: URI[]"], "void"⟩]⟩

/-- `MainThreadDocumentContentProvidersShape` as declared in extHost.protocol.ts (extends IDisposable). -/
def MainThreadDocumentContentProvidersShape : ShapeDecl :=
  ⟨"MainThreadDocumentContentProvidersShape", true,
   [⟨"$registerTextContentProvider", ["handle: number", "scheme: string"], "void"⟩,
    ⟨"$unregisterTextContentProvider", ["handle: number"], "void"⟩,
    ⟨"$onVirtualDocumentChange", ["uri: URI", "value: ITextSource"], "void"⟩]⟩

/-- `MainThreadDocumentsShape` as declared in extHost.protocol.ts (extends IDisposable). -/
def MainThreadDocumentsShape : ShapeDecl :=
  ⟨"MainThreadDocumentsShape", true,
   [⟨"$tryCreateDocument", ["options?: \x7b language?: string; content?: string; \x7d"], "TPromise<any>"⟩,
    ⟨"$tryOpenDocument", ["uri: URI"], "TPromise<any>"⟩,
    ⟨"$trySaveDocument", ["uri: URI"], "TPromise<boolean>"⟩]⟩

/-- `MainThreadEditorsShape` as declared in extHost.protocol.ts (extends IDisposable). -/
def MainThreadEditorsShape : ShapeDecl :=
  ⟨"MainThreadEditorsShape", true,
   [⟨"$tryShowTextDocument", ["resource: URI", "options: ITextDocumentShowOptions"], "TPromise<string>"⟩,
    ⟨"$registerTextEditorDecorationType", ["key: string", "options: editorCommon.IDecorationRenderOptions"], "void"⟩,
    ⟨"$removeTextEditorDecorationType", ["key: string"], "void"⟩,
    ⟨"$tryShowEditor", ["id: string", "position: EditorPosition"], "TPromise<void>"⟩,
    ⟨"$tryHideEditor", ["id: string"], "TPromise<void>"⟩,
    ⟨"$trySetOptions", ["id: string", "options: ITextEditorConfigurationUpdate"], "TPromise<any>"⟩,
    ⟨"$trySetDecorations", ["id: string", "key: string", "ranges: editorCommon.IDecorationOptions[]"], "TPromise<any>"⟩,
    ⟨"$trySetDecorationsFast", ["id: string", "key: string", "ranges: string"], "TPromise<any>"⟩,
    ⟨"$tryRevealRange", ["id: string", "range: IRange", "revealType: TextEditorRevealType"], "TPromise<any>"⟩,
    ⟨"$trySetSelections", ["id: string", "selections: ISelection[]"], "TPromise<any>"⟩,
    ⟨"$tryApplyEdits", ["id: string", "modelVersionId: number", "edits: editorCommon.ISingleEditOperation[]", "opts: IApplyEditsOptions"], "TPromise<boolean>"⟩,
    ⟨"$tryApplyWorkspaceEdit", ["workspaceResourceEdits: IWorkspaceResourceEdit[]"], "TPromise<boolean>"⟩,
    ⟨"$tryInsertSnippet", ["id: string", "template: string", "selections: IRange[]", "opts: IUndoStopOptions"], "TPromise<any>"⟩,
    ⟨"$getDiffInformation", ["id: string"], "TPromise<editorCommon.ILineChange[]>"⟩]⟩

/-- `MainThreadTreeViewsShape` as declared in extHost.protocol.ts (extends IDisposable). -/
def MainThreadTreeViewsShape : ShapeDecl :=
  ⟨"MainThreadTreeViewsShape", true,
   [⟨"$registerView", ["treeViewId: string"], "void"⟩,
    ⟨"$refresh", ["treeViewId: string", "treeItemHandles: number[]"], "void"⟩]⟩

/-- `MainThreadErrorsShape` as declared in extHost.protocol.ts (extends IDisposable). -/
def MainThreadErrorsShape : ShapeDecl :=
  ⟨"MainThreadErrorsShape", true,
   [⟨"$onUnexpectedError", ["err: any | SerializedError", "extensionId: string | undefined"], "void"⟩]⟩

/-- `MainThreadLanguageFeaturesShape` as declared in extHost.protocol.ts (extends IDisposable). -/
def MainThreadLanguageFeaturesShape : ShapeDecl :=
  ⟨"MainThreadLanguageFeaturesShape", true,
   [⟨"$unregister", ["handle: number"], "TPromise<any>"⟩,
    ⟨"$registerOutlineSupport", ["handle: number", "selector: vscode.DocumentSelector"], "TPromise<any>"⟩,
    ⟨"$registerCodeLensSupport", ["handle: number", "selector: vscode.DocumentSelector", "eventHandle: number"], "TPromise<any>"⟩,
    ⟨"$emitCodeLensEvent", ["eventHandle: number", "event?: any"], "TPromise<any>"⟩,
    ⟨"$registerDeclaractionSupport", ["handle: number", "selector: vscode.DocumentSelector"], "TPromise<any>"⟩,
    ⟨"$registerImplementationSupport", ["handle: number", "selector: vscode.DocumentSelector"], "TPromise<any>"⟩,
    ⟨"$registerTypeDefinitionSupport", ["handle: number", "selector: vscode.DocumentSelector"], "TPromise<any>"⟩,
    ⟨"$registerHoverProvider", ["handle: number", "selector: vscode.DocumentSelector"], "TPromise<any>"⟩,
    ⟨"$registerDocumentHighlightProvider", ["handle: number", "selector: vscode.DocumentSelector"], "TPromise<any>"⟩,
    ⟨"$registerReferenceSupport", ["handle: number", "selector: vscode.DocumentSelector"], "TPromise<any>"⟩,
    ⟨"$registerQuickFixSupport", ["handle: number", "selector: vscode.DocumentSelector"], "TPromise<any>"⟩,
    ⟨"$registerDocumentFormattingSupport", ["handle: number", "selector: vscode.DocumentSelector"], "TPromise<any>"⟩,
    ⟨"$registerRangeFormattingSupport", ["handle: number", "selector: vscode.DocumentSelector"], "TPromise<any>"⟩,
    ⟨"$registerOnTypeFormattingSupport", ["handle: number", "selector: vscode.DocumentSelector", "autoFormatTriggerCharacters: string[]"], "TPromise<any>"⟩,
    ⟨"$registerNavigateTypeSupport", ["handle: number"], "TPromise<any>"⟩,
    ⟨"$registerRenameSupport", ["handle: number", "selector: vscode.DocumentSelector"], "TPromise<any>"⟩,
    ⟨"$registerSuggestSupport", ["handle: number", "selector: vscode.DocumentSelector", "triggerCharacters: string[]", "supportsResolveDetails: boolean"], "TPromise<any>"⟩,
    ⟨"$registerSignatureHelpProvider", ["handle: number", "selector: vscode.DocumentSelector", "triggerCharacter: string[]"], "TPromise<any>"⟩,
    ⟨"$registerDocumentLinkProvider", ["handle: number", "selector: vscode.DocumentSelector"], "TPromise<any>"⟩,
    ⟨"$registerDocumentColorProvider", ["handle: number", "selector: vscode.DocumentSelector"], "TPromise<any>"⟩,
    ⟨"$setLanguageConfiguration", ["handle: number", "languageId: string", "configuration: vscode.LanguageConfiguration"], "TPromise<any>"⟩]⟩

/-- `MainThreadLanguagesShape` as declared in extHost.protocol.ts (extends IDisposable). -/
def MainThreadLanguagesShape : ShapeDecl :=
  ⟨"MainThreadLanguagesShape", true,
   [⟨"$getLanguages", [], "TPromise<string[]>"⟩]⟩

/-- `MainThreadMessageServiceShape` as declared in extHost.protocol.ts (extends IDisposable). -/
def MainThreadMessageServiceShape : ShapeDecl :=
  ⟨"MainThreadMessageServiceShape", true,
   [⟨"$showMessage", ["severity: Severity", "message: string", "options: MainThreadMessageOptions", "commands: \x7b title: string; isCloseAffordance: boolean; handle: number; \x7d[]"], "Thenable<number>"⟩]⟩

/-- `MainThreadOutputServiceShape` as declared in extHost.protocol.ts (extends IDisposable). -/
def MainThreadOutputServiceShape : ShapeDecl :=
  ⟨"MainThreadOutputServiceShape", true,
   [⟨"$append", ["channelId: string", "label: string", "value: string"], "TPromise<void>"⟩,
    ⟨"$clear", ["channelId: string", "label: string"], "TPromise<void>"⟩,
    ⟨"$dispose", ["channelId: string", "label: string"], "TPromise<void>"⟩,
    ⟨"$reveal", ["channelId: string", "label: string", "preserveFocus: boolean"], "TPromise<void>"⟩,
    ⟨"$close", ["channelId: string"], "TPromise<void>"⟩]⟩

/-- `MainThreadProgressShape` as declared in extHost.protocol.ts (extends IDisposable). -/
def MainThreadProgressShape : ShapeDecl :=
  ⟨"MainThreadProgressShape", true,
   [⟨"$startProgress", ["handle: number", "options: IProgressOptions"], "void"⟩,
    ⟨"$progressReport", ["handle: number", "message: IProgressStep"], "void"⟩,
    ⟨"$progressEnd", ["handle: number"], "void"⟩]⟩

/-- `MainThreadTerminalServiceShape` as declared in extHost.protocol.ts (extends IDisposable). -/
def MainThreadTerminalServiceShape : ShapeDecl :=
  ⟨"MainThreadTerminalServiceShape", true,
   [⟨"$createTerminal", ["name?: string", "shellPath?: string", "shellArgs?: string[]", "env?: \x7b [key: string]: string \x7d", "waitOnExit?: boolean"], "TPromise<number>"⟩,
    ⟨"$dispose", ["terminalId: number"], "void"⟩,
    ⟨"$hide", ["terminalId: number"], "void"⟩,
    ⟨"$sendText", ["terminalId: number", "text: string", "addNewLine: boolean"], "void"⟩,
    ⟨"$show", ["terminalId: number", "preserveFocus: boolean"], "void"⟩]⟩

/-- `MainThreadQuickOpenShape` as declared in extHost.protocol.ts (extends IDisposable). -/
def MainThreadQuickOpenShape : ShapeDecl :=
  ⟨"MainThreadQuickOpenShape", true,
   [⟨"$show", ["options: IPickOptions"], "TPromise<number>"⟩,
    ⟨"$setItems", ["items: MyQuickPickItems[]"], "TPromise<any>"⟩,
    ⟨"$setError", ["error: Error"], "TPromise<any>"⟩,
    ⟨"$input", ["options: vscode.InputBoxOptions", "validateInput: boolean"], "TPromise<string>"⟩]⟩

/-- `MainThreadStatusBarShape` as declared in extHost.protocol.ts (extends IDisposable). -/
def MainThreadStatusBarShape : ShapeDecl :=
  ⟨"MainThreadStatusBarShape", true,
   [⟨"$setEntry", ["id: number", "extensionId: string", "text: string", "tooltip: string", "command: string", "color: string | ThemeColor", "alignment: MainThreadStatusBarAlignment", "priority: number"], "void"⟩,
    ⟨"$dispose", ["id: number"], "void"⟩]⟩

/-- `MainThreadStorageShape` as declared in extHost.protocol.ts (extends IDisposable). -/
def MainThreadStorageShape : ShapeDecl :=
  ⟨"MainThreadStorageShape", true,
   [⟨"$getValue", ["shared: boolean", "key: string"], "TPromise<T>"⟩,
    ⟨"$setValue", ["shared: boolean", "key: string", "value: any"], "TPromise<any>"⟩]⟩

/-- `MainThreadTelemetryShape` as declared in extHost.protocol.ts (extends IDisposable). -/
def MainThreadTelemetryShape : ShapeDecl :=
  ⟨"MainThreadTelemetryShape", true,
   [⟨"$publicLog", ["eventName: string", "data?: any"], "void"⟩]⟩

/-- `MainThreadWorkspaceShape` as declared in extHost.protocol.ts (extends IDisposable). -/
def MainThreadWorkspaceShape : ShapeDecl :=
  ⟨"MainThreadWorkspaceShape", true,
   [⟨"$startSearch", ["include: string | IRelativePattern", "exclude: string | IRelativePattern", "maxResults: number", "requestId: number"], "Thenable<URI[]>"⟩,
    ⟨"$cancelSearch", ["requestId: number"], "Thenable<boolean>"⟩,
    ⟨"$saveAll", ["includeUntitled?: boolean"], "Thenable<boolean>"⟩]⟩

/-- `MainThreadFileSystemShape` as declared in extHost.protocol.ts (extends IDisposable). -/
def MainThreadFileSystemShape : ShapeDecl :=
  ⟨"MainThreadFileSystemShape", true,
   [⟨"$registerFileSystemProvider", ["handle: number", "scheme: string"], "void"⟩,
    ⟨"$unregisterFileSystemProvider", ["handle: number"], "void"⟩,
    ⟨"$onDidAddFileSystemRoot", ["root: URI"], "void"⟩,
    ⟨"$onFileSystemChange", ["handle: number", "resource: IFileChange[]"], "void"⟩,
    ⟨"$reportFileChunk", ["handle: number", "resource: URI", "chunk: number[] | null"], "void"⟩,
    ⟨"$handleSearchProgress", ["handle: number", "session: number", "resource: URI"], "void"⟩]⟩

/-- `MainThreadTaskShape` as declared in extHost.protocol.ts (extends IDisposable). -/
def MainThreadTaskShape : ShapeDecl :=
  ⟨"MainThreadTaskShape", true,
   [⟨"$registerTaskProvider", ["handle: number"], "TPromise<any>"⟩,
    ⟨"$unregisterTaskProvider", ["handle: number"], "TPromise<any>"⟩]⟩

/-- `MainThreadExtensionServiceShape` as declared in extHost.protocol.ts (extends IDisposable). -/
def MainThreadExtensionServiceShape : ShapeDecl :=
  ⟨"MainThreadExtensionServiceShape", true,
   [⟨"$localShowMessage", ["severity: Severity", "msg: string"], "void"⟩,
    ⟨"$onExtensionActivated", ["extensionId: string", "startup: boolean", "codeLoadingTime: number", "activateCallTime: number", "activateResolvedTime: number"], "void"⟩,
    ⟨"$onExtensionActivationFailed", ["extensionId: string"], "void"⟩]⟩

/-- `MainThreadSCMShape` as declared in extHost.protocol.ts (extends IDisposable). -/
def MainThreadSCMShape : ShapeDecl :=
  ⟨"MainThreadSCMShape", true,
   [⟨"$registerSourceControl", ["handle: number", "id: string", "label: string", "rootUri: string | undefined"], "void"⟩,
    ⟨"$updateSourceControl", ["handle: number", "features: SCMProviderFeatures"], "void"⟩,
    ⟨"$unregisterSourceControl", ["handle: number"], "void"⟩,
    ⟨"$registerGroup", ["sourceControlHandle: number", "handle: number", "id: string", "label: string"], "void"⟩,
    ⟨"$updateGroup", ["sourceControlHandle: number", "handle: number", "features: SCMGroupFeatures"], "void"⟩,
    ⟨"$updateGroupLabel", ["sourceControlHandle: number", "handle: number", "label: string"], "void"⟩,
    ⟨"$unregisterGroup", ["sourceControlHandle: number", "handle: number"], "void"⟩,
    ⟨"$spliceResourceStates", ["sourceControlHandle: number", "splices: SCMRawResourceSplices[]"], "void"⟩,
    ⟨"$setInputBoxValue", ["sourceControlHandle: number", "value: string"], "void"⟩,
    ⟨"$setInputBoxPlaceholder", ["sourceControlHandle: number", "placeholder: string"], "void"⟩]⟩

/-- `MainThreadDebugServiceShape` as declared in extHost.protocol.ts (extends IDisposable). -/
def MainThreadDebugServiceShape : ShapeDecl :=
  ⟨"MainThreadDebugServiceShape", true,
   [⟨"$registerDebugConfigurationProvider", ["type: string", "hasProvideMethod: boolean", "hasResolveMethod: boolean", "handle: number"], "TPromise<any>"⟩,
    ⟨"$unregisterDebugConfigurationProvider", ["handle: number"], "TPromise<any>"⟩,
    ⟨"$startDebugging", ["folder: URI | undefined", "nameOrConfig: string | vscode.DebugConfiguration"], "TPromise<boolean>"⟩,
    ⟨"$customDebugAdapterRequest", ["id: DebugSessionUUID", "command: string", "args: any"], "TPromise<any>"⟩,
    ⟨"$appendDebugConsole", ["value: string"], "TPromise<any>"⟩]⟩

/-- `MainThreadWindowShape` as declared in extHost.protocol.ts (extends IDisposable). -/
def MainThreadWindowShape : ShapeDecl :=
  ⟨"MainThreadWindowShape", true,
   [⟨"$getWindowVisibility", [], "TPromise<boolean>"⟩]⟩

/-- `ExtHostCommandsShape` as declared in extHost.protocol.ts. -/
def ExtHostCommandsShape : ShapeDecl :=
  ⟨"ExtHostCommandsShape", false,
   [⟨"$executeContributedCommand", ["id: string", "...args: any[]"], "Thenable<T>"⟩,
    ⟨"$getContributedCommandHandlerDescriptions", [], "TPromise<\x7b [id: string]: string | ICommandHandlerDescription \x7d>"⟩]⟩

/-- `ExtHostConfigurationShape` as declared in extHost.protocol.ts. -/
def ExtHostConfigurationShape : ShapeDecl :=
  ⟨"ExtHostConfigurationShape", false,
   [⟨"$acceptConfigurationChanged", ["data: IConfigurationData", "eventData: IWorkspaceConfigurationChangeEventData"], "void"⟩]⟩

/-- `ExtHostDiagnosticsShape` as declared in extHost.protocol.ts. -/
def ExtHostDiagnosticsShape : ShapeDecl :=
  ⟨"ExtHostDiagnosticsShape", false,
   []⟩

/-- `ExtHostDocumentContentProvidersShape` as declared in extHost.protocol.ts. -/
def ExtHostDocumentContentProvidersShape : ShapeDecl :=
  ⟨"ExtHostDocumentContentProvidersShape", false,
   [⟨"$provideTextDocumentContent", ["handle: number", "uri: URI"], "TPromise<string>"⟩]⟩

/-- `ExtHostDocumentsShape` as declared in extHost.protocol.ts. -/
def ExtHostDocumentsShape : ShapeDecl :=
  ⟨"ExtHostDocumentsShape", false,
   [⟨"$acceptModelModeChanged", ["strURL: string", "oldModeId: string", "newModeId: string"], "void"⟩,
    ⟨"$acceptModelSaved", ["strURL: string"], "void"⟩,
    ⟨"$acceptDirtyStateChanged", ["strURL: string", "isDirty: boolean"], "void"⟩,
    ⟨"$acceptModelChanged", ["strURL: string", "e: IModelChangedEvent", "isDirty: boolean"], "void"⟩]⟩

/-- `ExtHostDocumentSaveParticipantShape` as declared in extHost.protocol.ts. -/
def ExtHostDocumentSaveParticipantShape : ShapeDecl :=
  ⟨"ExtHostDocumentSaveParticipantShape", false,
   [⟨"$participateInSave", ["resource: URI", "reason: SaveReason"], "TPromise<boolean[]>"⟩]⟩

/-- `ExtHostEditorsShape` as declared in extHost.protocol.ts. -/
def ExtHostEditorsShape : ShapeDecl :=
  ⟨"ExtHostEditorsShape", false,
   [⟨"$acceptOptionsChanged", ["id: string", "opts: IResolvedTextEditorConfiguration"], "void"⟩,
    ⟨"$acceptSelectionsChanged", ["id: string", "event: ISelectionChangeEvent"], "void"⟩,
    ⟨"$acceptEditorPositionData", ["data: ITextEditorPositionData"], "void"⟩]⟩

/-- `ExtHostDocumentsAndEditorsShape` as declared in extHost.protocol.ts. -/
def ExtHostDocumentsAndEditorsShape : ShapeDecl :=
  ⟨"ExtHostDocumentsAndEditorsShape", false,
   [⟨"$acceptDocumentsAndEditorsDelta", ["delta: IDocumentsAndEditorsDelta"], "void"⟩]⟩

/-- `ExtHostTreeViewsShape` as declared in extHost.protocol.ts. -/
def ExtHostTreeViewsShape : ShapeDecl :=
  ⟨"ExtHostTreeViewsShape", false,
   [⟨"$getElements", ["treeViewId: string"], "TPromise<ITreeItem[]>"⟩,
    ⟨"$getChildren", ["treeViewId: string", "treeItemHandle: number"], "TPromise<ITreeItem[]>"⟩]⟩

/-- `ExtHostWorkspaceShape` as declared in extHost.protocol.ts. -/
def ExtHostWorkspaceShape : ShapeDecl :=
  ⟨"ExtHostWorkspaceShape", false,
   [⟨"$acceptWorkspaceData", ["workspace: IWorkspaceData"], "void"⟩]⟩

/-- `ExtHostFileSystemShape` as declared in extHost.protocol.ts. -/
def ExtHostFileSystemShape : ShapeDecl :=
  ⟨"ExtHostFileSystemShape", false,
   [⟨"$utimes", ["handle: number", "resource: URI", "mtime: number", "atime: number"], "TPromise<IStat>"⟩,
    ⟨"$stat", ["handle: number", "resource: URI"], "TPromise<IStat>"⟩,
    ⟨"$read", ["handle: number", "offset: number", "count: number", "resource: URI"], "TPromise<number>"⟩,
    ⟨"$write", ["handle: number", "resource: URI", "content: number[]"], "TPromise<void>"⟩,
    ⟨"$unlink", ["handle: number", "resource: URI"], "TPromise<void>"⟩,
    ⟨"$move", ["handle: number", "resource: URI", "target: URI"], "TPromise<IStat>"⟩,
    ⟨"$mkdir", ["handle: number", "resource: URI"], "TPromise<IStat>"⟩,
    ⟨"$readdir", ["handle: number", "resource: URI"], "TPromise<[URI, IStat][]>"⟩,
    ⟨"$rmdir", ["handle: number", "resource: URI"], "TPromise<void>"⟩,
    ⟨"$fileFiles", ["handle: number", "session: number", "query: string"], "TPromise<void>"⟩]⟩

/-- `ExtHostExtensionServiceShape` as declared in extHost.protocol.ts. -/
def ExtHostExtensionServiceShape : ShapeDecl :=
  ⟨"ExtHostExtensionServiceShape", false,
   [⟨"$activateByEvent", ["activationEvent: string"], "TPromise<void>"⟩]⟩

/-- `ExtHostFileSystemEventServiceShape` as declared in extHost.protocol.ts. -/
def ExtHostFileSystemEventServiceShape : ShapeDecl :=
  ⟨"ExtHostFileSystemEventServiceShape", false,
   [⟨"$onFileEvent", ["events: FileSystemEvents"], "void"⟩]⟩

/-- `ExtHostHeapServiceShape` as declared in extHost.protocol.ts. -/
def ExtHostHeapServiceShape : ShapeDecl :=
  ⟨"ExtHostHeapServiceShape", false,
   [⟨"$onGarbageCollection", ["ids: number[]"], "void"⟩]⟩

/-- `ExtHostLanguageFeaturesShape` as declared in extHost.protocol.ts. -/
def ExtHostLanguageFeaturesShape : ShapeDecl :=
  ⟨"ExtHostLanguageFeaturesShape", false,
   [⟨"$provideDocumentSymbols", ["handle: number", "resource: URI"], "TPromise<modes.SymbolInformation[]>"⟩,
    ⟨"$provideCodeLenses", ["handle: number", "resource: URI"], "TPromise<modes.ICodeLensSymbol[]>"⟩,
    ⟨"$resolveCodeLens", ["handle: number", "resource: URI", "symbol: modes.ICodeLensSymbol"], "TPromise<modes.ICodeLensSymbol>"⟩,
    ⟨"$provideDefinition", ["handle: number", "resource: URI", "position: IPosition"], "TPromise<modes.Definition>"⟩,
    ⟨"$provideImplementation", ["handle: number", "resource: URI", "position: IPosition"], "TPromise<modes.Definition>"⟩,
    ⟨"$provideTypeDefinition", ["handle: number", "resource: URI", "position: IPosition"], "TPromise<modes.Definition>"⟩,
    ⟨"$provideHover", ["handle: number", "resource: URI", "position: IPosition"], "TPromise<modes.Hover>"⟩,
    ⟨"$provideDocumentHighlights", ["handle: number", "resource: URI", "position: IPosition"], "TPromise<modes.DocumentHighlight[]>"⟩,
    ⟨"$provideReferences", ["handle: number", "resource: URI", "position: IPosition", "context: modes.ReferenceContext"], "TPromise<modes.Location[]>"⟩,
    ⟨"$provideCodeActions", ["handle: number", "resource: URI", "range: IRange"], "TPromise<(modes.Command | modes.CodeAction)[]>"⟩,
    ⟨"$provideDocumentFormattingEdits", ["handle: number", "resource: URI", "options: modes.FormattingOptions"], "TPromise<editorCommon.ISingleEditOperation[]>"⟩,
    ⟨"$provideDocumentRangeFormattingEdits", ["handle: number", "resource: URI", "range: IRange", "options: modes.FormattingOptions"], "TPromise<editorCommon.ISingleEditOperation[]>"⟩,
    ⟨"$provideOnTypeFormattingEdits", ["handle: number", "resource: URI", "position: IPosition", "ch: string", "options: modes.FormattingOptions"], "TPromise<editorCommon.ISingleEditOperation[]>"⟩,
    ⟨"$provideWorkspaceSymbols", ["handle: number", "search: string"], "TPromise<IWorkspaceSymbols>"⟩,
    ⟨"$resolveWorkspaceSymbol", ["handle: number", "symbol: modes.SymbolInformation"], "TPromise<IWorkspaceSymbol>"⟩,
    ⟨"$releaseWorkspaceSymbols", ["handle: number", "id: number"], "void"⟩,
    ⟨"$provideRenameEdits", ["handle: number", "resource: URI", "position: IPosition", "newName: string"], "TPromise<modes.WorkspaceEdit>"⟩,
    ⟨"$provideCompletionItems", ["handle: number", "resource: URI", "position: IPosition", "context: modes.SuggestContext"], "TPromise<IExtHostSuggestResult>"⟩,
    ⟨"$resolveCompletionItem", ["handle: number", "resource: URI", "position: IPosition", "suggestion: modes.ISuggestion"], "TPromise<modes.ISuggestion>"⟩,
    ⟨"$releaseCompletionItems", ["handle: number", "id: number"], "void"⟩,
    ⟨"$provideSignatureHelp", ["handle: number", "resource: URI", "position: IPosition"], "TPromise<modes.SignatureHelp>"⟩,
    ⟨"$provideDocumentLinks", ["handle: number", "resource: URI"], "TPromise<modes.ILink[]>"⟩,
    ⟨"$resolveDocumentLink", ["handle: number", "link: modes.ILink"], "TPromise<modes.ILink>"⟩,
    ⟨"$provideDocumentColors", ["handle: number", "resource: URI"], "TPromise<IRawColorInfo[]>"⟩,
    ⟨"$provideColorPresentations", ["handle: number", "resource: URI", "colorInfo: IRawColorInfo"], "TPromise<modes.IColorPresentation[]>"⟩]⟩

/-- `ExtHostQuickOpenShape` as declared in extHost.protocol.ts. -/
def ExtHostQuickOpenShape : ShapeDecl :=
  ⟨"ExtHostQuickOpenShape", false,
   [⟨"$onItemSelected", ["handle: number"], "void"⟩,
    ⟨"$validateInput", ["input: string"], "TPromise<string>"⟩]⟩

/-- `ExtHostTerminalServiceShape` as declared in extHost.protocol.ts. -/
def ExtHostTerminalServiceShape : ShapeDecl :=
  ⟨"ExtHostTerminalServiceShape", false,
   [⟨"$acceptTerminalClosed", ["id: number"], "void"⟩,
    ⟨"$acceptTerminalProcessId", ["id: number", "processId: number"], "void"⟩]⟩

/-- `ExtHostSCMShape` as declared in extHost.protocol.ts. -/
def ExtHostSCMShape : ShapeDecl :=
  ⟨"ExtHostSCMShape", false,
   [⟨"$provideOriginalResource", ["sourceControlHandle: number", "uri: URI"], "TPromise<URI>"⟩,
    ⟨"$onInputBoxValueChange", ["sourceControlHandle: number", "value: string"], "TPromise<void>"⟩,
    ⟨"$executeResourceCommand", ["sourceControlHandle: number", "groupHandle: number", "handle: number"], "TPromise<void>"⟩]⟩

/-- `ExtHostTaskShape` as declared in extHost.protocol.ts. -/
def ExtHostTaskShape : ShapeDecl :=
  ⟨"ExtHostTaskShape", false,
   [⟨"$provideTasks", ["handle: number"], "TPromise<TaskSet>"⟩]⟩

/-- `ExtHostDebugServiceShape` as declared in extHost.protocol.ts. -/
def ExtHostDebugServiceShape : ShapeDecl :=
  ⟨"ExtHostDebugServiceShape", false,
   [⟨"$resolveDebugConfiguration", ["handle: number", "folder: URI | undefined", "debugConfiguration: any"], "TPromise<any>"⟩,
    ⟨"$provideDebugConfigurations", ["handle: number", "folder: URI | undefined"], "TPromise<any[]>"⟩,
    ⟨"$acceptDebugSessionStarted", ["id: DebugSessionUUID", "type: string", "name: string"], "void"⟩,
    ⟨"$acceptDebugSessionTerminated", ["id: DebugSessionUUID", "type: string", "name: string"], "void"⟩,
    ⟨"$acceptDebugSessionActiveChanged", ["id: DebugSessionUUID | undefined", "type?: string", "name?: string"], "void"⟩,
    ⟨"$acceptDebugSessionCustomEvent", ["id: DebugSessionUUID", "type: string", "name: string", "event: any"], "void"⟩]⟩

/-- `ExtHostDecorationsShape` as declared in extHost.protocol.ts. -/
def ExtHostDecorationsShape : ShapeDecl :=
  ⟨"ExtHostDecorationsShape", false,
   [⟨"$providerDecorations", ["handle: number", "uri: URI"], "TPromise<DecorationData>"⟩]⟩

/-- `ExtHostWindowShape` as declared in extHost.protocol.ts. -/
def ExtHostWindowShape : ShapeDecl :=
  ⟨"ExtHostWindowShape", false,
   [⟨"$onDidChangeWindowFocus", ["value: boolean"], "void"⟩]⟩

/-- The `MainContext` proxy-identifier table: each entry records the table key,
the registered name string passed to the identifier factory, and the shape type. -/
def MainContext : List ContextEntry :=
  [⟨"MainThreadCommands", "MainThreadCommands", MainThreadCommandsShape⟩,
   ⟨"MainThreadConfiguration", "MainThreadConfiguration", MainThreadConfigurationShape⟩,
   ⟨"MainThreadDebugService", "MainThreadDebugService", MainThreadDebugServiceShape⟩,
   ⟨"MainThreadDecorations", "MainThreadDecorations", MainThreadDecorationsShape⟩,
   ⟨"MainThreadDiagnostics", "MainThreadDiagnostics", MainThreadDiagnosticsShape⟩,
   ⟨"MainThreadDialogs", "MainThreadDiaglogs", MainThreadDiaglogsShape⟩,
   ⟨"MainThreadDocuments", "MainThreadDocuments", MainThreadDocumentsShape⟩,
   ⟨"MainThreadDocumentContentProviders", "MainThreadDocumentContentProviders", MainThreadDocumentContentProvidersShape⟩,
   ⟨"MainThreadEditors", "MainThreadEditors", MainThreadEditorsShape⟩,
   ⟨"MainThreadErrors", "MainThreadErrors", MainThreadErrorsShape⟩,
   ⟨"MainThreadTreeViews", "MainThreadTreeViews", MainThreadTreeViewsShape⟩,
   ⟨"MainThreadLanguageFeatures", "MainThreadLanguageFeatures", MainThreadLanguageFeaturesShape⟩,
   ⟨"MainThreadLanguages", "MainThreadLanguages", MainThreadLanguagesShape⟩,
   ⟨"MainThreadMessageService", "MainThreadMessageService", MainThreadMessageServiceShape⟩,
   ⟨"MainThreadOutputService", "MainThreadOutputService", MainThreadOutputServiceShape⟩,
   ⟨"MainThreadProgress", "MainThreadProgress", MainThreadProgressShape⟩,
   ⟨"MainThreadQuickOpen", "MainThreadQuickOpen", MainThreadQuickOpenShape⟩,
   ⟨"MainThreadStatusBar", "MainThreadStatusBar", MainThreadStatusBarShape⟩,
   ⟨"MainThreadStorage", "MainThreadStorage", MainThreadStorageShape⟩,
   ⟨"MainThreadTelemetry", "MainThreadTelemetry", MainThreadTelemetryShape⟩,
   ⟨"MainThreadTerminalService", "MainThreadTerminalService", MainThreadTerminalServiceShape⟩,
   ⟨"MainThreadWorkspace", "MainThreadWorkspace", MainThreadWorkspaceShape⟩,
   ⟨"MainThreadFileSystem", "MainThreadFileSystem", MainThreadFileSystemShape⟩,
   ⟨"MainThreadExtensionService", "MainThreadExtensionService", MainThreadExtensionServiceShape⟩,
   ⟨"MainThreadSCM", "MainThreadSCM", MainThreadSCMShape⟩,
   ⟨"MainThreadTask", "MainThreadTask", MainThreadTaskShape⟩,
   ⟨"MainThreadWindow", "MainThreadWindow", MainThreadWindowShape⟩]

/-- The `ExtHostContext` proxy-identifier table: each entry records the table key,
the registered name string passed to the identifier factory, and the shape type. -/
def ExtHostContext : List ContextEntry :=
  [⟨"ExtHostCommands", "ExtHostCommands", ExtHostCommandsShape⟩,
   ⟨"ExtHostConfiguration", "ExtHostConfiguration", ExtHostConfigurationShape⟩,
   ⟨"ExtHostDiagnostics", "ExtHostDiagnostics", ExtHostDiagnosticsShape⟩,
   ⟨"ExtHostDebugService", "ExtHostDebugService", ExtHostDebugServiceShape⟩,
   ⟨"ExtHostDecorations", "ExtHostDecorations", ExtHostDecorationsShape⟩,
   ⟨"ExtHostDocumentsAndEditors", "ExtHostDocumentsAndEditors", ExtHostDocumentsAndEditorsShape⟩,
   ⟨"ExtHostDocuments", "ExtHostDocuments", ExtHostDocumentsShape⟩,
   ⟨"ExtHostDocumentContentProviders", "ExtHostDocumentContentProviders", ExtHostDocumentContentProvidersShape⟩,
   ⟨"ExtHostDocumentSaveParticipant", "ExtHostDocumentSaveParticipant", ExtHostDocumentSaveParticipantShape⟩,
   ⟨"ExtHostEditors", "ExtHostEditors", ExtHostEditorsShape⟩,
   ⟨"ExtHostTreeViews", "ExtHostTreeViews", ExtHostTreeViewsShape⟩,
   ⟨"ExtHostFileSystem", "ExtHostFileSystem", ExtHostFileSystemShape⟩,
   ⟨"ExtHostFileSystemEventService", "ExtHostFileSystemEventService", ExtHostFileSystemEventServiceShape⟩,
   ⟨"ExtHostHeapService", "ExtHostHeapMonitor", ExtHostHeapServiceShape⟩,
   ⟨"ExtHostLanguageFeatures", "ExtHostLanguageFeatures", ExtHostLanguageFeaturesShape⟩,
   ⟨"ExtHostQuickOpen", "ExtHostQuickOpen", ExtHostQuickOpenShape⟩,
   ⟨"ExtHostExtensionService", "ExtHostExtensionService", ExtHostExtensionServiceShape⟩,
   ⟨"ExtHostTerminalService", "ExtHostTerminalService", ExtHostTerminalServiceShape⟩,
   ⟨"ExtHostSCM", "ExtHostSCM", ExtHostSCMShape⟩,
   ⟨"ExtHostTask", "ExtHostTask", ExtHostTaskShape⟩,
   ⟨"ExtHostWorkspace", "ExtHostWorkspace", ExtHostWorkspaceShape⟩,
   ⟨"ExtHostWindow", "ExtHostWindow", ExtHostWindowShape⟩]


/-- All entries of both proxy-identifier context tables. -/
def allContextEntries : List ContextEntry := MainContext ++ ExtHostContext

/-- The name strings registered in the Main-thread table. -/
def mainRegisteredNames : List String := MainContext.map (fun e => e.registeredName)

/-- The name strings registered in the extension-host table. -/
def extRegisteredNames : List String := ExtHostContext.map (fun e => e.registeredName)

/-- All (shape name, method) pairs reachable from the two context tables. -/
def protocolMethods : List (String × MethodDecl) :=
  allContextEntries.flatMap (fun e => e.shape.methods.map (fun m => (e.shape.name, m)))

/-- C4: every Main-thread capability shape registered in `MainContext` extends
`IDisposable`, while no extension-host shape registered in `ExtHostContext`
extends `IDisposable` or declares a disposal operation. -/
theorem mainThread_shapes_are_disposable :
    (∀ e ∈ MainContext, e.shape.extendsIDisposable = true) ∧
    (∀ e ∈ ExtHostContext, e.shape.extendsIDisposable = false ∧
      ∀ m ∈ e.shape.methods, m.name ≠ "$dispose" ∧ m.name ≠ "dispose") := by
  decide

/-- Witness for C4 at a concrete table entry. -/
theorem mainThread_shapes_are_disposable_witness :
    MainThreadWindowShape.extendsIDisposable = true :=
  mainThread_shapes_are_disposable.1
    ⟨"MainThreadWindow", "MainThreadWindow", MainThreadWindowShape⟩ (by decide)

/-- C5: every protocol operation in either table whose name carries the
accept/notify fire-and-forget prefix declares a plain `void` return, never a
deferred (`TPromise`/`Thenable`) result. -/
theorem accept_notify_ops_return_void :
    ∀ p ∈ protocolMethods,
      (strStartsWith "$accept" p.2.name || strStartsWith "$notify" p.2.name) = true →
      p.2.ret = "void" := by
  decide

/-- Witness for C5 at a concrete accept-style operation. -/
theorem accept_notify_ops_return_void_witness :
    (⟨"$acceptModelSaved", ["strURL: string"], "void"⟩ : MethodDecl).ret = "void" :=
  accept_notify_ops_return_void
    ("ExtHostDocumentsShape", ⟨"$acceptModelSaved", ["strURL: string"], "void"⟩)
    (by decide) (by decide)

/-- C6: registered proxy-identifier names are pairwise distinct within each
table, and the two tables register disjoint name sets. -/
theorem proxy_names_unique_per_side_and_disjoint :
    mainRegisteredNames.Nodup ∧ extRegisteredNames.Nodup ∧
    mainRegisteredNames.inter extRegisteredNames = [] := by
  decide

/-- C8: the heap service shape exposes exactly the single fire-and-forget
notification `$onGarbageCollection(ids: number[]): void`, and no other
operation in either table mentions garbage collection. -/
theorem gc_channel_single_void_notification :
    ExtHostHeapServiceShape.methods = [⟨"$onGarbageCollection", ["ids: number[]"], "void"⟩] ∧
    (protocolMethods.filter (fun p => strHasSub "Garbage" p.2.name)).map (fun p => (p.1, p.2.name))
      = [("ExtHostHeapServiceShape", "$onGarbageCollection")] ∧
    (protocolMethods.filter (fun p => strHasSub "Collect" p.2.name)).map (fun p => (p.1, p.2.name))
      = [("ExtHostHeapServiceShape", "$onGarbageCollection")] := by
  decide

/-- C9: exactly two context entries register a name string different from
their table key — `MainThreadDialogs` registers `MainThreadDiaglogs` and
`ExtHostHeapService` registers `ExtHostHeapMonitor`; every other entry
registers its key verbatim. -/
theorem registered_name_differs_from_key_exactly_twice :
    (MainContext.filter (fun e => e.key != e.registeredName)).map (fun e => (e.key, e.registeredName))
      = [("MainThreadDialogs", "MainThreadDiaglogs")] ∧
    (ExtHostContext.filter (fun e => e.key != e.registeredName)).map (fun e => (e.key, e.registeredName))
      = [("ExtHostHeapService", "ExtHostHeapMonitor")] := by
  decide

/-- A JavaScript property descriptor as used by `Object.defineProperty`:
a value together with its enumerability flag. Property values are drawn
from an arbitrary type `α`. -/
structure PropertyDescriptor (α : Type) where
  value : α
  enumerable : Bool
deriving DecidableEq

/-- A JavaScript object, modelled as its ordered property list. -/
structure JSObject (α : Type) where
  props : List (String × PropertyDescriptor α)
deriving DecidableEq

/-- First-match property lookup in a property list. -/
def findProp {β : Type} : List (String × β) → String → Option β
  | [], _ => none
  | p :: l, k => if p.1 = k then some p.2 else findProp l k

/-- Whether a property list holds the key `k`. -/
def hasKey {β : Type} : List (String × β) → String → Bool
  | [], _ => false
  | p :: l, k => p.1 == k || hasKey l k

/-- Replace (in place) every property named `k` with descriptor `d`. -/
def replaceProp {β : Type} : List (String × β) → String → β → List (String × β)
  | [], _, _ => []
  | p :: l, k, d => (if p.1 = k then (k, d) else p) :: replaceProp l k d

/-- `Object.defineProperty(obj, k, d)`: redefine the property `k` in place
when it is present, otherwise append it. -/
def defineProperty {α : Type} (obj : JSObject α) (k : String) (d : PropertyDescriptor α) :
    JSObject α :=
  if hasKey obj.props k then ⟨replaceProp obj.props k d⟩ else ⟨obj.props ++ [(k, d)]⟩

/-- Property lookup, descriptor included (`none` models `undefined`). -/
def getProp {α : Type} (obj : JSObject α) (k : String) : Option (PropertyDescriptor α) :=
  findProp obj.props k

/-- The keys a consumer enumerating the object (`for ... in`, `Object.keys`,
JSON serialization) observes: exactly the enumerable properties, in order. -/
def enumerableKeys {α : Type} (obj : JSObject α) : List String :=
  (obj.props.filter (fun p => p.2.enumerable)).map (fun p => p.1)

/-- `ObjectIdentifier.name`, the identity key `$ident`. -/
def ObjectIdentifier.name : String := "$ident"

/-- `ObjectIdentifier.mixin(obj, id)`:
`Object.defineProperty(obj, name, \x7b value: id, enumerable: true \x7d)`,
returning the object. -/
def ObjectIdentifier.mixin {α : Type} (obj : JSObject α) (id : α) : JSObject α :=
  defineProperty obj ObjectIdentifier.name ⟨id, true⟩

/-- `ObjectIdentifier.of(obj)`: read `obj[name]`. -/
def ObjectIdentifier.of {α : Type} (obj : JSObject α) : Option α :=
  (getProp obj ObjectIdentifier.name).map (fun d => d.value)

lemma findProp_replaceProp_ne {β : Type} (l : List (String × β)) (k k' : String) (d : β)
    (h : ¬ k' = k) :
    findProp (replaceProp l k d) k' = findProp l k' := by
  induction l with
  | nil => rfl
  | cons a l ih =>
    by_cases hak : a.1 = k
    · simp only [replaceProp, findProp, if_pos hak]
      rw [if_neg (fun h' => h h'.symm), if_neg (fun h' : a.1 = k' => h (by rw [← hak, h']))]
      exact ih
    · simp only [replaceProp, findProp, if_neg hak]
      by_cases hak' : a.1 = k'
      · rw [if_pos hak', if_pos hak']
      · rw [if_neg hak', if_neg hak']
        exact ih

lemma findProp_replaceProp_self {β : Type} (l : List (String × β)) (k : String) (d : β)
    (h : hasKey l k = true) :
    findProp (replaceProp l k d) k = some d := by
  induction l with
  | nil => simp [hasKey] at h
  | cons a l ih =>
    by_cases hak : a.1 = k
    · simp [replaceProp, findProp, if_pos hak]
    · simp only [replaceProp, findProp, if_neg hak]
      apply ih
      simpa [hasKey, hak] using h

lemma findProp_append_single_ne {β : Type} (l : List (String × β)) (k k' : String) (d : β)
    (h : ¬ k' = k) :
    findProp (l ++ [(k, d)]) k' = findProp l k' := by
  induction l with
  | nil =>
    simp only [List.nil_append, findProp]
    rw [if_neg (fun h' : k = k' => h h'.symm)]
  | cons a l ih =>
    by_cases hak' : a.1 = k'
    · simp only [List.cons_append, findProp, if_pos hak']
    · simp only [List.cons_append, findProp, if_neg hak']
      exact ih

lemma findProp_append_single_self {β : Type} (l : List (String × β)) (k : String) (d : β)
    (h : hasKey l k = false) :
    findProp (l ++ [(k, d)]) k = some d := by
  induction l with
  | nil => simp [findProp]
  | cons a l ih =>
    have hak : ¬ a.1 = k := by
      intro hh
      simp [hasKey, hh] at h
    simp only [List.cons_append, findProp, if_neg hak]
    apply ih
    simpa [hasKey, hak] using h

lemma getProp_defineProperty_self {α : Type} (obj : JSObject α) (k : String)
    (d : PropertyDescriptor α) :
    getProp (defineProperty obj k d) k = some d := by
  unfold defineProperty getProp
  by_cases h : hasKey obj.props k = true
  · rw [if_pos h]
    exact findProp_replaceProp_self _ _ _ h
  · rw [if_neg h]
    exact findProp_append_single_self _ _ _ (by simpa using h)

lemma getProp_defineProperty_ne {α : Type} (obj : JSObject α) (k k' : String)
    (d : PropertyDescriptor α) (h : ¬ k' = k) :
    getProp (defineProperty obj k d) k' = getProp obj k' := by
  unfold defineProperty getProp
  by_cases hany : hasKey obj.props k = true
  · rw [if_pos hany]
    exact findProp_replaceProp_ne _ _ _ _ h
  · rw [if_neg hany]
    exact findProp_append_single_ne _ _ _ _ h

/-- C2 counterexample: stamping an object with `ObjectIdentifier.mixin` adds
`$ident` as an *enumerable* property (`enumerable: true` in the source), so a
consumer enumerating the object's visible shape does observe the identity
field: the enumerable keys change from `["label"]` to `["label", "$ident"]`. -/
theorem objectIdentifier_mixin_enumerable_counterexample :
    enumerableKeys (ObjectIdentifier.mixin (⟨[("label", ⟨7, true⟩)]⟩ : JSObject Int) 42)
      = ["label", "$ident"] ∧
    enumerableKeys (ObjectIdentifier.mixin (⟨[("label", ⟨7, true⟩)]⟩ : JSObject Int) 42)
      ≠ enumerableKeys (⟨[("label", ⟨7, true⟩)]⟩ : JSObject Int) := by
  decide

/-- C2 (amended): `ObjectIdentifier.mixin(obj, id)` leaves every property of
`obj` other than the identity field `$ident` unchanged, and sets `$ident` to
`id` as an enumerable property — so the stamp alters no other property, but
the identity field itself is observable to a consumer enumerating the
object. -/
theorem objectIdentifier_mixin_frame {α : Type} (obj : JSObject α) (id : α) (k : String)
    (hk : ¬ k = ObjectIdentifier.name) :
    getProp (ObjectIdentifier.mixin obj id) k = getProp obj k ∧
    getProp (ObjectIdentifier.mixin obj id) ObjectIdentifier.name
      = some ⟨id, true⟩ ∧
    ObjectIdentifier.of (ObjectIdentifier.mixin obj id) = some id := by
  refine ⟨getProp_defineProperty_ne _ _ _ _ hk, getProp_defineProperty_self _ _ _, ?_⟩
  unfold ObjectIdentifier.of ObjectIdentifier.mixin
  rw [getProp_defineProperty_self]
  rfl

/-- Witness for the amended C2 at a concrete object and key. -/
theorem objectIdentifier_mixin_frame_witness :
    getProp (ObjectIdentifier.mixin (⟨[("label", ⟨7, true⟩)]⟩ : JSObject Int) 42) "label"
      = getProp (⟨[("label", ⟨7, true⟩)]⟩ : JSObject Int) "label" ∧
    getProp (ObjectIdentifier.mixin (⟨[("label", ⟨7, true⟩)]⟩ : JSObject Int) 42)
      ObjectIdentifier.name = some ⟨42, true⟩ ∧
    ObjectIdentifier.of (ObjectIdentifier.mixin (⟨[("label", ⟨7, true⟩)]⟩ : JSObject Int) 42)
      = some 42 :=
  objectIdentifier_mixin_frame (⟨[("label", ⟨7, true⟩)]⟩ : JSObject Int) 42 "label" (by decide)

/-- An object stamped by `IdObject.mixin`, reduced to what the claims track:
the kind/category tag of the object being stamped (the source's `mixin<T>` is
generic in the object) and the `_id` the call assigned. -/
structure Stamped (κ : Type) where
  category : κ
  _id : Nat
deriving DecidableEq

/-- One call of `IdObject.mixin`: the module-level counter `n` is threaded
explicitly; `object._id = n++` assigns the current counter value and
post-increments, regardless of the object being stamped. Returns the
assigned id and the new counter. -/
def IdObject.mixinStep (n : Nat) : Nat × Nat := (n, n + 1)

/-- Run a sequence of `IdObject.mixin` calls, one per object in `objs`
(each object represented by its category tag), threading the counter from
`n`. Returns the stamped objects in call order and the final counter. -/
def IdObject.runMixins {κ : Type} : List κ → Nat → List (Stamped κ) × Nat
  | [], n => ([], n)
  | c :: cs, n =>
    let r := IdObject.runMixins cs (IdObject.mixinStep n).2
    (⟨c, (IdObject.mixinStep n).1⟩ :: r.1, r.2)

lemma IdObject.runMixins_getElem {κ : Type} (objs : List κ) (n i : Nat) :
    ((IdObject.runMixins objs n).1)[i]? = (objs[i]?).map (fun c => ⟨c, n + i⟩) := by
  induction objs generalizing n i with
  | nil => simp [IdObject.runMixins]
  | cons c cs ih =>
    cases i with
    | zero => simp [IdObject.runMixins, IdObject.mixinStep]
    | succ j =>
      simp only [IdObject.runMixins, IdObject.mixinStep, List.getElem?_cons_succ]
      rw [ih]
      have : n + 1 + j = n + (j + 1) := by omega
      rw [this]

lemma IdObject.runMixins_counter {κ : Type} (objs : List κ) (n : Nat) :
    (IdObject.runMixins objs n).2 = n + objs.length := by
  induction objs generalizing n with
  | nil => simp [IdObject.runMixins]
  | cons c cs ih =>
    simp only [IdObject.runMixins, IdObject.mixinStep, List.length_cons]
    rw [ih]
    omega

/-- C1: handle allocation by `IdObject.mixin` is strictly monotonic and never
reuses an id within a process lifetime: in any run of calls, a later call
assigns a strictly larger id than an earlier one (so two objects of the same
category never share an id), and the very next call assigns exactly the
previous id plus one. -/
theorem idObject_handles_monotonic_per_category {κ : Type} (objs : List κ) (n i j : Nat)
    (p q : Stamped κ)
    (hp : ((IdObject.runMixins objs n).1)[i]? = some p)
    (hq : ((IdObject.runMixins objs n).1)[j]? = some q)
    (hij : i < j) :
    p._id < q._id ∧ (j = i + 1 → q._id = p._id + 1) ∧
    (p.category = q.category → p._id ≠ q._id) := by
  rw [IdObject.runMixins_getElem] at hp hq
  rcases hcp : objs[i]? with _ | c
  · rw [hcp] at hp
    exact absurd hp (by simp)
  rcases hcq : objs[j]? with _ | c'
  · rw [hcq] at hq
    exact absurd hq (by simp)
  rw [hcp] at hp
  rw [hcq] at hq
  have hpv : p = ⟨c, n + i⟩ := by simpa using hp.symm
  have hqv : q = ⟨c', n + j⟩ := by simpa using hq.symm
  subst hpv
  subst hqv
  refine ⟨by simpa using (by omega : n + i < n + j), ?_, ?_⟩
  · intro hji
    simp only
    omega
  · intro _
    simpa using (by omega : ¬ n + i = n + j)

/-- Witness for C1 on a concrete run: three calls with categories
`["document", "symbol", "document"]` starting at counter 5; the first and
third call stamp the same category with ids 5 and 7. -/
theorem idObject_handles_monotonic_per_category_witness :
    (⟨"document", 5⟩ : Stamped String)._id < (⟨"document", 7⟩ : Stamped String)._id ∧
    ((2 : Nat) = 0 + 1 → (⟨"document", 7⟩ : Stamped String)._id
      = (⟨"document", 5⟩ : Stamped String)._id + 1) ∧
    ((⟨"document", 5⟩ : Stamped String).category = (⟨"document", 7⟩ : Stamped String).category →
      (⟨"document", 5⟩ : Stamped String)._id ≠ (⟨"document", 7⟩ : Stamped String)._id) :=
  idObject_handles_monotonic_per_category ["document", "symbol", "document"] 5 0 2
    ⟨"document", 5⟩ ⟨"document", 7⟩ (by decide) (by decide) (by decide)

/-- C10: the allocator is one process-wide counter shared by all categories:
the i-th call assigns id `n + i` no matter which category it stamps, distinct
calls always get distinct ids (even across categories), and the counter
advances by exactly one per call (ending at `n + number of calls`). -/
theorem idObject_counter_global_across_categories {κ : Type} (objs : List κ) (n i j : Nat)
    (p q : Stamped κ)
    (hp : ((IdObject.runMixins objs n).1)[i]? = some p)
    (hq : ((IdObject.runMixins objs n).1)[j]? = some q) :
    p._id = n + i ∧
    (¬ i = j → ¬ p._id = q._id) ∧
    (IdObject.runMixins objs n).2 = n + objs.length := by
  rw [IdObject.runMixins_getElem] at hp hq
  rcases hcp : objs[i]? with _ | c
  · rw [hcp] at hp
    exact absurd hp (by simp)
  rcases hcq : objs[j]? with _ | c'
  · rw [hcq] at hq
    exact absurd hq (by simp)
  rw [hcp] at hp
  rw [hcq] at hq
  have hpv : p = ⟨c, n + i⟩ := by simpa using hp.symm
  have hqv : q = ⟨c', n + j⟩ := by simpa using hq.symm
  subst hpv
  subst hqv
  refine ⟨rfl, ?_, IdObject.runMixins_counter objs n⟩
  intro hne
  simp only
  omega

/-- Witness for C10 on the same concrete run: the second call (category
`"symbol"`) gets id 6 = 5 + 1, differs from the first call's id, and the
counter ends at 8. -/
theorem idObject_counter_global_across_categories_witness :
    (⟨"symbol", 6⟩ : Stamped String)._id = 5 + 1 ∧
    (¬ (1 : Nat) = 0 → ¬ (⟨"symbol", 6⟩ : Stamped String)._id
      = (⟨"document", 5⟩ : Stamped String)._id) ∧
    (IdObject.runMixins ["document", "symbol", "document"] 5).2
      = 5 + (["document", "symbol", "document"] : List String).length :=
  idObject_counter_global_across_categories ["document", "symbol", "document"] 5 1 0
    ⟨"symbol", 6⟩ ⟨"document", 5⟩ (by decide) (by decide)

/-- `TextEditorCursorStyle` is imported from the editor configuration;
modelled by its numeric enumeration value. -/
abbrev TextEditorCursorStyle := Nat

/-- `TextEditorLineNumbersStyle` is imported from the extension-host types;
modelled by its numeric enumeration value. -/
abbrev TextEditorLineNumbersStyle := Nat

/-- `EditorPosition` is imported from the platform editor module; modelled by
its numeric enumeration value. -/
abbrev EditorPosition := Nat

/-- `IResolvedTextEditorConfiguration` as declared in the source. -/
structure IResolvedTextEditorConfiguration where
  tabSize : Nat
  insertSpaces : Bool
  cursorStyle : TextEditorCursorStyle
  lineNumbers : TextEditorLineNumbersStyle
deriving DecidableEq

/-- `ISelection` is imported from the editor core: a selection given by its
anchor and caret positions. -/
structure ISelection where
  selectionStartLineNumber : Nat
  selectionStartColumn : Nat
  positionLineNumber : Nat
  positionColumn : Nat
deriving DecidableEq

/-- `IModelAddedData` as declared in the source; `URI` modelled as its
string form. -/
structure IModelAddedData where
  url : String
  versionId : Nat
  lines : List String
  EOL : String
  modeId : String
  isDirty : Bool
deriving DecidableEq

/-- `ITextEditorAddData` as declared in the source. -/
structure ITextEditorAddData where
  id : String
  document : String
  options : IResolvedTextEditorConfiguration
  selections : List ISelection
  editorPosition : EditorPosition
deriving DecidableEq

/-- `IDocumentsAndEditorsDelta` as declared in the source: all five fields
are optional. -/
structure IDocumentsAndEditorsDelta where
  removedDocuments : Option (List String)
  addedDocuments : Option (List IModelAddedData)
  removedEditors : Option (List String)
  addedEditors : Option (List ITextEditorAddData)
  newActiveEditor : Option String
deriving DecidableEq

/-- Modelled from the spec: the consumer-side shadow state kept in sync by
`$acceptDocumentsAndEditorsDelta` (the maintaining code, the extension-host
documents-and-editors model, is not part of this source file). Per spec §4.4
the shadow is a keyed mapping from document id to document data and from
editor id to editor data, plus the active-editor pointer. -/
structure ShadowState where
  documents : String → Option IModelAddedData
  editors : String → Option ITextEditorAddData
  activeEditor : Option String

/-- Remove each id in `ids` from a keyed mapping; an absent id is a no-op. -/
def removeKeys {β : Type} (ids : List String) (m : String → Option β) :
    String → Option β :=
  fun k => if k ∈ ids then none else m k

/-- Add each descriptor of `xs` (keyed by `key`) to a mapping, in order,
replacing any existing entry with the same key. -/
def addEntries {β : Type} (key : β → String) (xs : List β) (m : String → Option β) :
    String → Option β :=
  xs.foldl (fun acc x => fun k => if k = key x then some x else acc k) m

/-- The last descriptor of `xs` whose key is `k`, if any — the one that wins
when the descriptors are added in order. -/
def lastWith {β : Type} (key : β → String) (xs : List β) (k : String) : Option β :=
  xs.foldl (fun acc x => if k = key x then some x else acc) none

/-- Modelled from the spec: `applyDelta(d)` per §4.4 — remove each id listed
in `removedDocuments`/`removedEditors` from the shadow (a no-op, not an
error, when absent), add each descriptor of `addedDocuments`/`addedEditors`
in order (replacing any existing entry with the same id), and update the
active pointer when `newActiveEditor` is present. An absent optional field
requests no change of that kind. -/
def applyDelta (d : IDocumentsAndEditorsDelta) (s : ShadowState) : ShadowState where
  documents := addEntries (fun y => y.url) (d.addedDocuments.getD [])
      (removeKeys (d.removedDocuments.getD []) s.documents)
  editors := addEntries (fun y => y.id) (d.addedEditors.getD [])
      (removeKeys (d.removedEditors.getD []) s.editors)
  activeEditor := match d.newActiveEditor with
    | some e => some e
    | none => s.activeEditor

lemma addEntries_pointwise {β : Type} (key : β → String) (xs : List β)
    (m : String → Option β) (k : String) :
    addEntries key xs m k
      = xs.foldl (fun acc x => if k = key x then some x else acc) (m k) := by
  induction xs generalizing m with
  | nil => rfl
  | cons x xs ih =>
    simp only [addEntries, List.foldl_cons]
    exact ih (fun k' => if k' = key x then some x else m k')

lemma foldl_pick_absorb {β : Type} (key : β → String) (k : String) (xs : List β)
    (a : Option β) :
    xs.foldl (fun acc x => if k = key x then some x else acc) a
      = match lastWith key xs k with
        | some y => some y
        | none => a := by
  induction xs generalizing a with
  | nil => simp [lastWith]
  | cons x xs ih =>
    have hL : lastWith key (x :: xs) k
        = List.foldl (fun acc z => if k = key z then some z else acc)
            (if k = key x then some x else none) xs := by
      simp [lastWith, List.foldl_cons]
    rw [List.foldl_cons, hL, ih (if k = key x then some x else a),
      ih (if k = key x then some x else none)]
    rcases h : lastWith key xs k with _ | y
    · simp only [h]
      by_cases hk : k = key x <;> simp [hk]
    · simp only [h]

lemma addEntries_apply {β : Type} (key : β → String) (xs : List β)
    (m : String → Option β) (k : String) :
    addEntries key xs m k
      = match lastWith key xs k with
        | some y => some y
        | none => m k := by
  rw [addEntries_pointwise, foldl_pick_absorb]

lemma ShadowState.eq_of_fields (s t : ShadowState) (h1 : s.documents = t.documents)
    (h2 : s.editors = t.editors) (h3 : s.activeEditor = t.activeEditor) : s = t := by
  cases s
  cases t
  cases h1
  cases h2
  cases h3
  rfl

lemma applyCore_idem {β : Type} (key : β → String) (R : List String) (A : List β)
    (m : String → Option β) :
    addEntries key A (removeKeys R (addEntries key A (removeKeys R m)))
      = addEntries key A (removeKeys R m) := by
  funext k
  rw [addEntries_apply, addEntries_apply]
  rcases h : lastWith key A k with _ | y
  · simp only [h, removeKeys]
    by_cases hR : k ∈ R
    · simp [hR]
    · simp only [if_neg hR]
      rw [addEntries_apply, h]
      simp [removeKeys, hR]
  · simp [h]

/-- C3: applying the same documents-and-editors delta twice to a shadow
state yields the same shadow as applying it once; removing an id absent
from the shadow is a no-op (not an error); and adding a descriptor whose id
already exists replaces the existing entry (the keyed shadow cannot hold a
duplicate). -/
theorem applyDelta_idempotent (d : IDocumentsAndEditorsDelta) (s : ShadowState) :
    applyDelta d (applyDelta d s) = applyDelta d s ∧
    (∀ (ids : List String) (m : String → Option IModelAddedData),
      (∀ k, k ∈ ids → m k = none) → removeKeys ids m = m) ∧
    (∀ (k : String) (x old : IModelAddedData), s.documents k = some old →
      lastWith (fun y => y.url) (d.addedDocuments.getD []) k = some x →
      (applyDelta d s).documents k = some x) := by
  refine ⟨?_, ?_, ?_⟩
  · refine ShadowState.eq_of_fields _ _ (applyCore_idem _ _ _ _) (applyCore_idem _ _ _ _) ?_
    rcases hna : d.newActiveEditor with _ | e <;> simp [applyDelta, hna]
  · intro ids m hm
    funext k
    by_cases hk : k ∈ ids
    · simp [removeKeys, hk, hm k hk]
    · simp [removeKeys, hk]
  · intro k x old hold hlast
    show addEntries (fun y => y.url) (d.addedDocuments.getD [])
      (removeKeys (d.removedDocuments.getD []) s.documents) k = some x
    rw [addEntries_apply, hlast]

/-- A concrete document descriptor for the C3 witness. -/
def docW1 : IModelAddedData := ⟨"file:a", 1, ["hello"], "\n", "plaintext", false⟩

/-- A replacement descriptor with the same id (url) for the C3 witness. -/
def docW2 : IModelAddedData := ⟨"file:a", 2, ["hello world"], "\n", "plaintext", true⟩

/-- A concrete shadow state holding `docW1` for the C3 witness. -/
def shadowW : ShadowState :=
  ⟨fun k => if k = "file:a" then some docW1 else none, fun _ => none, none⟩

/-- A concrete delta for the C3 witness: replaces `file:a` and sets the
active editor. -/
def deltaW : IDocumentsAndEditorsDelta :=
  ⟨some ["file:a"], some [docW2], none, some [], some "e1"⟩

/-- Witness for C3 at the concrete delta and shadow. -/
theorem applyDelta_idempotent_witness :
    applyDelta deltaW (applyDelta deltaW shadowW) = applyDelta deltaW shadowW ∧
    removeKeys ["file:zzz"] shadowW.documents = shadowW.documents ∧
    (applyDelta deltaW shadowW).documents "file:a" = some docW2 :=
  ⟨(applyDelta_idempotent deltaW shadowW).1,
   (applyDelta_idempotent deltaW shadowW).2.1 ["file:zzz"] shadowW.documents
     (fun k hk => by
        have hkz : k = "file:zzz" := by simpa using hk
        subst hkz
        rfl),
   (applyDelta_idempotent deltaW shadowW).2.2 "file:a" docW2 docW1 (by decide) (by decide)⟩

/-- `modes.ISuggestion` is imported from the editor core; modelled opaquely
by its payload. -/
structure ISuggestion where
  payload : String
deriving DecidableEq

/-- `IExtHostSuggestion` as declared in the source: a suggestion plus its
own identity `_id` and the identity `_parentId` of the result set that owns
it. -/
structure IExtHostSuggestion extends ISuggestion where
  _id : Nat
  _parentId : Nat
deriving DecidableEq

/-- `IExtHostSuggestResult` as declared in the source. -/
structure IExtHostSuggestResult where
  _id : Nat
  suggestions : List IExtHostSuggestion
  incomplete : Option Bool
deriving DecidableEq

/-- Modelled from the spec: the provider adapter that builds an
`IExtHostSuggestResult` (not part of this source file) allocates one parent
handle for the whole result set and stamps each suggestion with a nested
per-set counter as `_id` and the set's handle as `_parentId`, so the entire
set can be released through the parent handle. `n` is the allocator counter
before the call. -/
def mkSuggestResult (n : Nat) (items : List ISuggestion) (incomplete : Option Bool) :
    IExtHostSuggestResult × Nat :=
  (⟨n, items.enum.map (fun p => ⟨p.2, p.1, n⟩), incomplete⟩, n + 1)

/-- Modelled from the spec: the extension-host side keeps outstanding result
sets in a cache keyed by the parent handle; `$releaseCompletionItems(handle,
id)` drops the whole set stored under parent id `id` in one call. -/
def releaseCompletionItems (id : Nat) (cache : Nat → Option IExtHostSuggestResult) :
    Nat → Option IExtHostSuggestResult :=
  fun h => if h = id then none else cache h

/-- C7: every suggestion of a result set carries `_parentId` equal to the
set's `_id`, and a single `$releaseCompletionItems` call with that parent id
removes the whole set from the cache (leaving every other set untouched);
the protocol shape indeed declares the one-shot release operations
`$releaseCompletionItems` and `$releaseWorkspaceSymbols`, each taking the
parent handle and returning `void`. -/
theorem suggest_result_shares_parent_handle (n : Nat) (items : List ISuggestion)
    (inc : Option Bool) (s : IExtHostSuggestion)
    (hs : s ∈ (mkSuggestResult n items inc).1.suggestions) :
    s._parentId = (mkSuggestResult n items inc).1._id ∧
    (∀ cache : Nat → Option IExtHostSuggestResult,
      releaseCompletionItems (mkSuggestResult n items inc).1._id cache
        ((mkSuggestResult n items inc).1._id) = none ∧
      ∀ h : Nat, ¬ h = (mkSuggestResult n items inc).1._id →
        releaseCompletionItems (mkSuggestResult n items inc).1._id cache h = cache h) ∧
    (⟨"$releaseCompletionItems", ["handle: number", "id: number"], "void"⟩ : MethodDecl)
      ∈ ExtHostLanguageFeaturesShape.methods ∧
    (⟨"$releaseWorkspaceSymbols", ["handle: number", "id: number"], "void"⟩ : MethodDecl)
      ∈ ExtHostLanguageFeaturesShape.methods := by
  refine ⟨?_, ?_, by decide, by decide⟩
  · simp only [mkSuggestResult, List.mem_map] at hs
    rcases hs with ⟨p, hp, hps⟩
    rw [← hps]
    rfl
  · intro cache
    refine ⟨by simp [releaseCompletionItems], ?_⟩
    intro h hh
    simp [releaseCompletionItems, hh]

/-- Witness for C7 on a concrete result set: counter 3 and two suggestions;
the second stamped suggestion is `⟨beta, 1, 3⟩`. -/
theorem suggest_result_shares_parent_handle_witness :
    (⟨⟨"beta"⟩, 1, 3⟩ : IExtHostSuggestion)._parentId
      = (mkSuggestResult 3 [⟨"alpha"⟩, ⟨"beta"⟩] none).1._id ∧
    (∀ cache : Nat → Option IExtHostSuggestResult,
      releaseCompletionItems (mkSuggestResult 3 [⟨"alpha"⟩, ⟨"beta"⟩] none).1._id cache
        ((mkSuggestResult 3 [⟨"alpha"⟩, ⟨"beta"⟩] none).1._id) = none ∧
      ∀ h : Nat, ¬ h = (mkSuggestResult 3 [⟨"alpha"⟩, ⟨"beta"⟩] none).1._id →
        releaseCompletionItems (mkSuggestResult 3 [⟨"alpha"⟩, ⟨"beta"⟩] none).1._id cache h
          = cache h) ∧
    (⟨"$releaseCompletionItems", ["handle: number", "id: number"], "void"⟩ : MethodDecl)
      ∈ ExtHostLanguageFeaturesShape.methods ∧
    (⟨"$releaseWorkspaceSymbols", ["handle: number", "id: number"], "void"⟩ : MethodDecl)
      ∈ ExtHostLanguageFeaturesShape.methods :=
  suggest_result_shares_parent_handle 3 [⟨"alpha"⟩, ⟨"beta"⟩] none ⟨⟨"beta"⟩, 1, 3⟩ (by decide)
